import Mathlib

/-!
Verification of the RAP-1 Ferry (raw → derived transformation) of the
square-one-coffee repository, a shallow embedding of
`src/analysis/rap-1/data-collection/ferry-to-derived.py`.

Modelling conventions:
* A pandas cell that may be `NaN`/null is an `Option`; numeric cells are exact
  rationals (`ℚ`) or integers (`ℤ`) rather than floats.
* A pandas comparison such as `series < c` yields `False` on a null cell; the
  helpers `qlt`/`qgt` reproduce that.
* The raw `cafes` table has further passthrough columns (address, phone,
  website, …) that the ferry never reads, corrects, derives from or validates;
  the embedding models the ten columns the ferry's logic touches.
* The real-valued derived columns (`quality_score`, `distance_from_downtown`,
  `location_zone`) are modelled as standalone column functions over `ℝ`,
  mirroring the script's independent column assignments, so that the rest of
  the pipeline stays computable.
-/

namespace Ferry

/-- Edmonton geographic boundaries (`EDMONTON_BOUNDS`): lat_min = 53.40. -/
def lat_min : ℚ := mkRat 267 5

/-- Edmonton bound `EDMONTON_BOUNDS.lat_max` = 53.70. -/
def lat_max : ℚ := mkRat 537 10

/-- Edmonton bound `EDMONTON_BOUNDS.lng_min` = -113.70. -/
def lng_min : ℚ := mkRat (-1137) 10

/-- Edmonton bound `EDMONTON_BOUNDS.lng_max` = -113.30. -/
def lng_max : ℚ := mkRat (-1133) 10

/-- Downtown reference point (`DOWNTOWN_REF`): lat = 53.5444. -/
def downtown_lat : ℚ := mkRat 535444 10000

/-- Downtown reference `DOWNTOWN_REF.lng` = -113.4909. -/
def downtown_lng : ℚ := mkRat (-1134909) 10000

/-- Plausible-price bound `PRICE_RANGE.min` = 2.00. -/
def price_min : ℚ := 2

/-- Plausible-price bound `PRICE_RANGE.max` = 10.00. -/
def price_max : ℚ := 10

/-- One row of the raw `cafes` table, restricted to the columns the ferry's
validation/standardization/enrichment logic touches. -/
structure RawRow where
  cafe_id : Option Int
  name : Option String
  neighborhood : Option String
  cafe_type : Option String
  ownership : Option String
  avg_beverage_price : Option ℚ
  google_rating : Option ℚ
  review_count : Option Int
  latitude : Option ℚ
  longitude : Option ℚ
deriving DecidableEq, Repr

/-- Pandas-style `<` on a nullable cell: null compares as `False`. -/
def qlt (a : Option ℚ) (b : ℚ) : Bool :=
  match a with
  | some x => decide (x < b)
  | none => false

/-- Pandas-style `>` on a nullable cell: null compares as `False`. -/
def qgt (a : Option ℚ) (b : ℚ) : Bool :=
  match a with
  | some x => decide (b < x)
  | none => false

/-- A row violating the required-field check (`ds_raw[required_fields].isna().any(axis=1)`). -/
def missingRequired (r : RawRow) : Bool :=
  r.cafe_id.isNone || r.name.isNone || r.neighborhood.isNone || r.cafe_type.isNone

/-- The check `ds_raw['cafe_id'].duplicated().any()`: some value occurs twice in the list. -/
def hasDup : List (Option Int) → Bool
  | [] => false
  | x :: xs => xs.contains x || hasDup xs

/-- The `out_of_bounds` mask (script lines 114–119): any coordinate comparison out of
the Edmonton bounds; null coordinates compare as `False`. -/
def out_of_bounds (r : RawRow) : Bool :=
  qlt r.latitude lat_min || qgt r.latitude lat_max ||
    qlt r.longitude lng_min || qgt r.longitude lng_max

/-- The `has_coords` mask: both coordinates non-null. -/
def has_coords (r : RawRow) : Bool :=
  r.latitude.isSome && r.longitude.isSome

/-- The mask `location_warnings = has_coords & out_of_bounds` (script line 120). -/
def location_warning (r : RawRow) : Bool :=
  has_coords r && out_of_bounds r

/-- The `price_suspicious` mask (script lines 131–134). -/
def price_suspicious (r : RawRow) : Bool :=
  qlt r.avg_beverage_price price_min || qgt r.avg_beverage_price price_max

/-- The mask `price_warnings = has_price & price_suspicious` (script line 135). -/
def price_warning (r : RawRow) : Bool :=
  r.avg_beverage_price.isSome && price_suspicious r

/-- The `invalid_rating` mask (script lines 146–149). -/
def invalid_rating (r : RawRow) : Bool :=
  qlt r.google_rating 1 || qgt r.google_rating 5

/-- The mask `rating_warnings = has_rating & invalid_rating` (script line 150). -/
def rating_warning (r : RawRow) : Bool :=
  r.google_rating.isSome && invalid_rating r

/-- The run's `validation_warnings` total: the three counted warning sums
(script lines 124, 139, 154).  Each `+=` is guarded by `.any()` in the script,
but adding an all-false mask's sum adds zero, so the total is the plain sum. -/
def countWarnings (raw : List RawRow) : Nat :=
  raw.countP location_warning + raw.countP price_warning + raw.countP rating_warning

/-- Python `str.title()` on a character list: upper-case each alphabetic
character that follows a non-alphabetic one, lower-case the rest.  The boolean
argument records whether the previous character was alphabetic. -/
def titleAux : Bool → List Char → List Char
  | _, [] => []
  | prevAlpha, c :: rest =>
    (if c.isAlpha then (if prevAlpha then c.toLower else c.toUpper) else c)
      :: titleAux c.isAlpha rest

/-- Python `str.strip()` on a character list: drop leading and trailing
whitespace. -/
def trimChars (s : List Char) : List Char :=
  ((s.dropWhile Char.isWhitespace).reverse.dropWhile Char.isWhitespace).reverse

/-- Python `str.strip().str.title()`. -/
def stripTitle (s : String) : String :=
  ⟨titleAux false (trimChars s.data)⟩

/-- Python `str.strip().str.lower()`. -/
def stripLower (s : String) : String :=
  ⟨(trimChars s.data).map Char.toLower⟩

/-- The Standardizer (script lines 164–176): works on a copy `ds` of `ds_raw`;
title-cases `neighborhood`, lower-cases `cafe_type`/`ownership`, nulls ratings
flagged by `invalid_rating`, nulls negative `review_count`. -/
def standardize (r : RawRow) : RawRow :=
  { r with
    neighborhood := r.neighborhood.map stripTitle
    cafe_type := r.cafe_type.map stripLower
    ownership := r.ownership.map stripLower
    google_rating := if invalid_rating r then none else r.google_rating
    review_count :=
      match r.review_count with
      | some c => if c < 0 then none else some c
      | none => none }

/-- Does the pattern start the string (on character lists)? -/
def leadsWith : List Char → List Char → Bool
  | [], _ => true
  | _ :: _, [] => false
  | p :: ps, c :: cs => p == c && leadsWith ps cs

/-- Does the pattern occur as a contiguous substring (on character lists)? -/
def occursIn (pat : List Char) : List Char → Bool
  | [] => pat.isEmpty
  | c :: cs => leadsWith pat (c :: cs) || occursIn pat cs

/-- The SOC predicate `ds['name'].str.contains('square one', case=False, na=False)` (script
line 184): case-insensitive substring match, null name gives `False`. -/
def socPred (name : Option String) : Bool :=
  match name with
  | some n => occursIn "square one".data (n.data.map Char.toLower)
  | none => false

/-- The `price_category` labels. -/
inductive PriceCategory
  | budget
  | moderate
  | premium
  | luxury
deriving DecidableEq, Repr

/-- The `quality_tier` labels. -/
inductive QualityTier
  | excellent
  | good
  | acceptable
  | poor
deriving DecidableEq, Repr

/-- The binning `pd.cut(price, bins=[0, 3.50, 5.00, 6.50, inf], labels=[budget, moderate,
premium, luxury])` (script lines 187–191): `pd.cut` is right-inclusive, so the
bins are (0, 3.5], (3.5, 5], (5, 6.5], (6.5, ∞); a value in no bin (null, or
≤ 0) gets a null category. -/
def priceCategoryOf : Option ℚ → Option PriceCategory
  | none => none
  | some x =>
    if 0 < x ∧ x ≤ mkRat 7 2 then some .budget
    else if mkRat 7 2 < x ∧ x ≤ 5 then some .moderate
    else if 5 < x ∧ x ≤ mkRat 13 2 then some .premium
    else if mkRat 13 2 < x then some .luxury
    else none

/-- The column `ds['review_count'].rank(pct=True)` (script line 194): average-rank
percentile of a cell among the column's non-null values; a null cell gets a
null rank.  The average rank of a tie group is
(count strictly below) + ((count equal) + 1)/2, and `pct=True` divides by the
number of non-null values. -/
def rankPct (vals : List (Option Int)) (x : Option Int) : Option ℚ :=
  match x with
  | none => none
  | some v =>
    let present := vals.filterMap id
    some ((((present.countP (fun w => w < v) : ℚ)) +
      ((present.countP (fun w => w == v) : ℚ) + 1) / 2) / (present.length : ℚ))

/-- The binning `pd.cut(count, bins=[-1, 0, 1, 2, inf], labels=[excellent, good,
acceptable, poor])` (script lines 241–245), right-inclusive bins
(-1, 0], (0, 1], (1, 2], (2, ∞). -/
def qualityTierOf (n : Int) : Option QualityTier :=
  if -1 < n ∧ n ≤ 0 then some .excellent
  else if 0 < n ∧ n ≤ 1 then some .good
  else if 1 < n ∧ n ≤ 2 then some .acceptable
  else if 2 < n then some .poor
  else none

/-- An enriched row as written to `soc_locations`/`competitors`: every column
of `cafes_complete` except the dropped `is_soc` helper column (and except the
real-valued columns modelled standalone, see the file header). -/
structure DroppedRow where
  cafe_id : Option Int
  name : Option String
  neighborhood : Option String
  cafe_type : Option String
  ownership : Option String
  avg_beverage_price : Option ℚ
  google_rating : Option ℚ
  review_count : Option Int
  latitude : Option ℚ
  longitude : Option ℚ
  price_category : Option PriceCategory
  popularity_percentile : Option ℚ
  flag_missing_location : Bool
  flag_no_rating : Bool
  flag_no_price : Bool
  flag_location_out_of_bounds : Bool
  flag_suspicious_price : Bool
  quality_flag_count : Nat
  quality_tier : Option QualityTier
deriving DecidableEq, Repr

/-- A row of `cafes_complete`: a `DroppedRow` plus the `is_soc` column. -/
structure EnrichedRow extends DroppedRow where
  is_soc : Bool
deriving DecidableEq, Repr

/-- The Enricher applied to one row (script lines 184–245).  `rcCol` is the
whole table's standardized `review_count` column, needed for the global
percentile rank.  The out-of-bounds and suspicious-price flags reuse the
validation masks computed on the raw row, with `fillna(False)`; the null-check
flags read the standardized row. -/
def enrichRow (rcCol : List (Option Int)) (r : RawRow) : EnrichedRow :=
  let s := standardize r
  let fml := s.latitude.isNone || s.longitude.isNone
  let fnr := s.google_rating.isNone
  let fnp := s.avg_beverage_price.isNone
  let flob := out_of_bounds r
  let fsp := price_suspicious r
  let cnt := fml.toNat + fnr.toNat + fnp.toNat + flob.toNat + fsp.toNat
  { cafe_id := s.cafe_id
    name := s.name
    neighborhood := s.neighborhood
    cafe_type := s.cafe_type
    ownership := s.ownership
    avg_beverage_price := s.avg_beverage_price
    google_rating := s.google_rating
    review_count := s.review_count
    latitude := s.latitude
    longitude := s.longitude
    price_category := priceCategoryOf s.avg_beverage_price
    popularity_percentile := rankPct rcCol s.review_count
    flag_missing_location := fml
    flag_no_rating := fnr
    flag_no_price := fnp
    flag_location_out_of_bounds := flob
    flag_suspicious_price := fsp
    quality_flag_count := cnt
    quality_tier := qualityTierOf (cnt : Int)
    is_soc := socPred s.name }

/-- The column `ds['quality_score'] = ds['google_rating'] * np.log(ds['review_count'] + 1)`
(script line 197), on the standardized columns; a null input propagates to a
null score. -/
noncomputable def qualityScore (rating : Option ℚ) (rc : Option Int) : Option ℝ :=
  match rating, rc with
  | some g, some c => some ((g : ℝ) * Real.log ((c : ℝ) + 1))
  | _, _ => none

/-- The function `calculate_distance` (script lines 200–205): planar distance in degrees to
the downtown reference, scaled by 111, null if a coordinate is missing. -/
noncomputable def distance_from_downtown (lat lng : Option ℚ) : Option ℝ :=
  match lat, lng with
  | some la, some ln =>
    some (Real.sqrt (((la : ℝ) - (downtown_lat : ℝ)) ^ 2 +
      ((ln : ℝ) - (downtown_lng : ℝ)) ^ 2) * 111)
  | _, _ => none

/-- The `location_zone` labels. -/
inductive LocationZone
  | core
  | inner
  | outer
  | peripheral
deriving DecidableEq, Repr

open scoped Classical in
/-- The binning `pd.cut(distance, bins=[0, 2, 5, 10, inf], labels=[core, inner, outer,
peripheral])` (script lines 210–214), right-inclusive bins. -/
noncomputable def locationZoneOf : Option ℝ → Option LocationZone
  | none => none
  | some d =>
    if 0 < d ∧ d ≤ 2 then some .core
    else if 2 < d ∧ d ≤ 5 then some .inner
    else if 5 < d ∧ d ≤ 10 then some .outer
    else if 10 < d then some .peripheral
    else none

/-- One row of `completeness_metrics` (script lines 265–271). -/
structure FieldMetric where
  field : String
  total_records : Nat
  complete_count : Nat
  missing_count : Nat
  complete_rate : ℚ
deriving DecidableEq, Repr

/-- One row of `quality_distribution` (script lines 273–275). -/
structure TierCount where
  quality_tier : QualityTier
  count : Nat
  percentage : ℚ
deriving DecidableEq, Repr

/-- The `metadata` row (script lines 282–293).  The environment columns
(`ferry_date`, `python_version`, `pandas_version`, file paths) are ambient
strings with no data content and are not modelled. -/
structure Metadata where
  input_records : Nat
  output_records : Nat
  validation_errors : Nat
  validation_warnings : Nat
  avg_completeness : ℚ
deriving DecidableEq, Repr

/-- The six tables of the derived store. -/
structure Store where
  cafes_complete : List EnrichedRow
  soc_locations : List DroppedRow
  competitors : List DroppedRow
  completeness_metrics : List FieldMetric
  quality_distribution : List TierCount
  metadata : Metadata
deriving DecidableEq, Repr

/-- The two fatal validation failures (each calls `sys.exit(1)`). -/
inductive FatalError
  | missingRequiredField
  | duplicateCafeId
deriving DecidableEq, Repr

/-- Whether a named raw column of a row is non-null (pandas `notna`). -/
def fieldPresent (f : String) (r : RawRow) : Bool :=
  if f = "cafe_id" then r.cafe_id.isSome
  else if f = "name" then r.name.isSome
  else if f = "neighborhood" then r.neighborhood.isSome
  else if f = "cafe_type" then r.cafe_type.isSome
  else if f = "ownership" then r.ownership.isSome
  else if f = "avg_beverage_price" then r.avg_beverage_price.isSome
  else if f = "google_rating" then r.google_rating.isSome
  else if f = "review_count" then r.review_count.isSome
  else if f = "latitude" then r.latitude.isSome
  else if f = "longitude" then r.longitude.isSome
  else false

/-- The modelled raw columns, in table order. -/
def rawFields : List String :=
  ["cafe_id", "name", "neighborhood", "cafe_type", "ownership",
   "avg_beverage_price", "google_rating", "review_count", "latitude", "longitude"]

/-- The table `completeness_metrics` (script lines 265–271): per-column counts over the
raw table, sorted ascending by `complete_rate`. -/
def completenessOf (raw : List RawRow) : List FieldMetric :=
  (rawFields.map (fun f =>
    let c := raw.countP (fieldPresent f)
    { field := f
      total_records := raw.length
      complete_count := c
      missing_count := raw.length - c
      complete_rate := (c : ℚ) / (raw.length : ℚ) : FieldMetric })).mergeSort
    (fun a b => a.complete_rate ≤ b.complete_rate)

/-- Round half-to-even to an integer, as numpy does. -/
def roundHalfEven (x : ℚ) : Int :=
  let f := ⌊x⌋
  if x - f < 1/2 then f
  else if 1/2 < x - f then f + 1
  else if f % 2 = 0 then f else f + 1

/-- Pandas `.round(1)`: numpy rounding to one decimal place. -/
def roundTo1 (x : ℚ) : ℚ :=
  (roundHalfEven (x * 10) : ℚ) / 10

/-- The four tiers in categorical order. -/
def tierOrder : List QualityTier :=
  [.excellent, .good, .acceptable, .poor]

/-- The table `quality_distribution` (script lines 273–275): `value_counts` of the
categorical `quality_tier` column (all four categories, sorted descending by
count) with a percentage column rounded to one decimal. -/
def qualityDistOf (enriched : List EnrichedRow) : List TierCount :=
  ((tierOrder.map (fun t =>
    (t, enriched.countP (fun e => e.quality_tier == some t)))).mergeSort
      (fun a b => b.2 ≤ a.2)).map (fun p =>
    { quality_tier := p.1
      count := p.2
      percentage := roundTo1 ((p.2 : ℚ) / (enriched.length : ℚ) * 100) })

/-- The standardize/enrich/partition/aggregate pipeline (script sections 4–5)
producing the six tables, run once the fatal checks have passed.
`validation_errors` is initialized to 0 (script line 87) and never incremented
on any path that reaches the metadata record. -/
def transformStore (raw : List RawRow) : Store :=
  let rcCol := raw.map (fun r => (standardize r).review_count)
  let enriched := raw.map (enrichRow rcCol)
  let metrics := completenessOf raw
  { cafes_complete := enriched
    soc_locations := (enriched.filter (·.is_soc)).map (·.toDroppedRow)
    competitors := (enriched.filter (fun e => !e.is_soc)).map (·.toDroppedRow)
    completeness_metrics := metrics
    quality_distribution := qualityDistOf enriched
    metadata :=
      { input_records := raw.length
        output_records := enriched.length
        validation_errors := 0
        validation_warnings := countWarnings raw
        avg_completeness :=
          ((metrics.map (·.complete_rate)).sum / (metrics.length : ℚ)) * 100 } }

/-- The Transform Stage (script sections 3–5): the two fatal checks, each of
which calls `sys.exit(1)` before anything is derived or written, then the
pipeline of `transformStore`. -/
def transform (raw : List RawRow) : Except FatalError Store :=
  if raw.any missingRequired then .error .missingRequiredField
  else if hasDup (raw.map (·.cafe_id)) then .error .duplicateCafeId
  else .ok (transformStore raw)

/-- The six table names in the order the script writes them (lines 309–314). -/
def tableNames : List String :=
  ["cafes_complete", "soc_locations", "competitors",
   "completeness_metrics", "quality_distribution", "metadata"]

/-- The whole run's effect on the derived-store file and its exit status.
`prior` is the set of tables in the pre-existing store file (`none` = no file).
A fatal validation error exits with status 1 before the store file is touched.
Otherwise the script deletes any existing store file (line 303) and writes the
six tables one by one; `failAt = some k` models the `(k+1)`-th `to_sql` call
failing, which kills the run (nonzero exit) and leaves the new file holding
only the first `k` tables. -/
def ferryDisk (prior : Option (List String)) (raw : List RawRow)
    (failAt : Option Nat) : Nat × Option (List String) :=
  match transform raw with
  | .error _ => (1, prior)
  | .ok _ =>
    match failAt with
    | none => (0, some tableNames)
    | some k => (1, some (tableNames.take k))

/-! ## Concrete rows used as witnesses and counterexamples -/

/-- The worked example row of spec §8 (price 5.25, rating 4.6, 300 reviews). -/
def goodRow : RawRow :=
  { cafe_id := some 1
    name := some "Square One Coffee - Oliver"
    neighborhood := some "oliver"
    cafe_type := some "Specialty_Coffee"
    ownership := some "local"
    avg_beverage_price := some (mkRat 21 4)
    google_rating := some (mkRat 23 5)
    review_count := some 300
    latitude := some (mkRat 5354 100)
    longitude := some (mkRat (-11349) 100) }

/-- A fully-required row with a negative `review_count` and no other issue. -/
def negReviewRow : RawRow :=
  { cafe_id := some 2
    name := some "Corner Beans"
    neighborhood := some "downtown"
    cafe_type := some "independent"
    ownership := none
    avg_beverage_price := none
    google_rating := none
    review_count := some (-5)
    latitude := none
    longitude := none }

/-- A row with a null latitude and an out-of-bounds longitude. -/
def halfCoordRow : RawRow :=
  { cafe_id := some 3
    name := some "Lone Lng"
    neighborhood := some "downtown"
    cafe_type := some "independent"
    ownership := none
    avg_beverage_price := none
    google_rating := none
    review_count := none
    latitude := none
    longitude := some (-200) }

/-- A row with an out-of-range rating 6.0 and no other issue. -/
def rating6Row : RawRow :=
  { cafe_id := some 4
    name := some "Sixth Star"
    neighborhood := some "downtown"
    cafe_type := some "independent"
    ownership := none
    avg_beverage_price := none
    google_rating := some 6
    review_count := none
    latitude := none
    longitude := none }

/-! ## Helper lemmas -/

theorem hasDup_eq_false_iff {l : List (Option Int)} : hasDup l = false ↔ l.Nodup := by
  induction l with
  | nil => simp [hasDup]
  | cons x xs ih =>
    simp only [hasDup, Bool.or_eq_false_iff, List.nodup_cons, ih]
    constructor
    · rintro ⟨hc, hn⟩
      refine ⟨fun hm => ?_, hn⟩
      have hc' : List.elem x xs = false := hc
      rw [List.elem_iff.mpr hm] at hc'
      exact Bool.noConfusion hc'
    · rintro ⟨hm, hn⟩
      refine ⟨?_, hn⟩
      cases hc : xs.contains x
      · rfl
      · exact absurd (List.elem_iff.mp hc) hm

theorem transform_eq_ok {raw : List RawRow} {s : Store} (h : transform raw = .ok s) :
    raw.any missingRequired = false ∧ hasDup (raw.map (·.cafe_id)) = false ∧
      s = transformStore raw := by
  unfold transform at h
  by_cases h1 : raw.any missingRequired
  · simp [h1] at h
  · by_cases h2 : hasDup (raw.map (·.cafe_id))
    · simp [h1, h2] at h
    · simp only [h1, h2, Bool.false_eq_true, if_false] at h
      exact ⟨by simp [h1], by simp [h2], (Except.ok.injEq _ _).mp h |>.symm⟩

theorem countP_five (a b c d f : Bool) :
    a.toNat + b.toNat + c.toNat + d.toNat + f.toNat = [a, b, c, d, f].countP id ∧
      a.toNat + b.toNat + c.toNat + d.toNat + f.toNat ≤ 5 := by
  cases a <;> cases b <;> cases c <;> cases d <;> cases f <;> decide

theorem qualityTierOf_nat (n : Nat) :
    qualityTierOf (n : Int) = some
      (if n = 0 then QualityTier.excellent
       else if n = 1 then QualityTier.good
       else if n = 2 then QualityTier.acceptable
       else QualityTier.poor) := by
  unfold qualityTierOf
  split_ifs <;> first | rfl | (exfalso; omega)

/-! ## Claim theorems -/

/-- Claim C1, counterexample: the claim's boundary-inclusion rule says a price
of exactly 3.50 yields `moderate`, but `pd.cut`'s right-inclusive first bin
(0, 3.50] puts 3.50 in `budget`. -/
theorem price_at_boundary_is_budget :
    priceCategoryOf (some (mkRat 7 2)) = some PriceCategory.budget ∧
      some PriceCategory.budget ≠ some PriceCategory.moderate := by
  decide

/-- Claim C1 (amended): for non-null prices, `price_category` follows the
right-inclusive bins (0, 3.50], (3.50, 5], (5, 6.50], (6.50, ∞) mapped to
budget/moderate/premium/luxury, so a price of exactly 3.50 yields `budget`
(as does 3.49999); a null price — or a price in no bin, i.e. ≤ 0 — yields a
null category. -/
theorem price_category_bins (x : ℚ) :
    priceCategoryOf none = none ∧
    (0 < x → x ≤ mkRat 7 2 → priceCategoryOf (some x) = some PriceCategory.budget) ∧
    (mkRat 7 2 < x → x ≤ 5 → priceCategoryOf (some x) = some PriceCategory.moderate) ∧
    (5 < x → x ≤ mkRat 13 2 → priceCategoryOf (some x) = some PriceCategory.premium) ∧
    (mkRat 13 2 < x → priceCategoryOf (some x) = some PriceCategory.luxury) ∧
    (x ≤ 0 → priceCategoryOf (some x) = none) := by
  have h1 : (0 : ℚ) < mkRat 7 2 := by decide
  have h2 : mkRat 7 2 < (5 : ℚ) := by decide
  have h3 : (5 : ℚ) < mkRat 13 2 := by decide
  refine ⟨rfl, ?_, ?_, ?_, ?_, ?_⟩
  · intro ha hb
    simp only [priceCategoryOf]
    rw [if_pos ⟨ha, hb⟩]
  · intro ha hb
    simp only [priceCategoryOf]
    rw [if_neg (fun c => absurd c.2 (not_le.mpr ha)), if_pos ⟨ha, hb⟩]
  · intro ha hb
    simp only [priceCategoryOf]
    rw [if_neg (fun c => absurd c.2 (not_le.mpr (h2.trans ha))),
      if_neg (fun c => absurd c.2 (not_le.mpr ha)), if_pos ⟨ha, hb⟩]
  · intro ha
    simp only [priceCategoryOf]
    rw [if_neg (fun c => absurd c.2 (not_le.mpr ((h2.trans h3).trans ha))),
      if_neg (fun c => absurd c.2 (not_le.mpr (h3.trans ha))),
      if_neg (fun c => absurd c.2 (not_le.mpr ha)), if_pos ha]
  · intro ha
    simp only [priceCategoryOf]
    rw [if_neg (fun c => absurd c.1 (not_lt.mpr ha)),
      if_neg (fun c => absurd c.1 (not_lt.mpr (ha.trans h1.le))),
      if_neg (fun c => absurd c.1 (not_lt.mpr (ha.trans (h1.trans h2).le))),
      if_neg (not_lt.mpr (ha.trans ((h1.trans h2).trans h3).le))]

/-- Witness for the amended C1 theorem: exactly 3.50 and 3.49999 both land in
`budget`. -/
theorem price_category_bins_witness :
    priceCategoryOf (some (mkRat 7 2)) = some PriceCategory.budget ∧
      priceCategoryOf (some (mkRat 349999 100000)) = some PriceCategory.budget :=
  ⟨(price_category_bins (mkRat 7 2)).2.1 (by decide) (by decide),
   (price_category_bins (mkRat 349999 100000)).2.1 (by decide) (by decide)⟩

/-- Claim C7: after standardization `google_rating` is null or in [1.0, 5.0]
and `review_count` is null or ≥ 0; a row whose raw rating is 6.0 ends with a
null rating and its `flag_no_rating` true. -/
theorem rating_review_standardized (r : RawRow) :
    ((standardize r).google_rating = none ∨
      ∃ x : ℚ, (standardize r).google_rating = some x ∧ 1 ≤ x ∧ x ≤ 5) ∧
    ((standardize r).review_count = none ∨
      ∃ c : Int, (standardize r).review_count = some c ∧ 0 ≤ c) ∧
    (r.google_rating = some 6 →
      (standardize r).google_rating = none ∧
        ∀ rcCol, (enrichRow rcCol r).flag_no_rating = true) := by
  refine ⟨?_, ?_, ?_⟩
  · by_cases h : invalid_rating r
    · left
      simp [standardize, h]
    · rcases hg : r.google_rating with _ | x
      · left
        simp [standardize, h, hg]
      · right
        refine ⟨x, by simp [standardize, h, hg], ?_, ?_⟩
        · simp only [invalid_rating, qlt, qgt, hg, Bool.or_eq_true, decide_eq_true_eq,
            not_or] at h
          exact not_lt.mp h.1
        · simp only [invalid_rating, qlt, qgt, hg, Bool.or_eq_true, decide_eq_true_eq,
            not_or] at h
          exact not_lt.mp h.2
  · rcases hc : r.review_count with _ | c
    · left
      simp [standardize, hc]
    · by_cases hneg : c < 0
      · left
        simp [standardize, hc, hneg]
      · right
        exact ⟨c, by simp [standardize, hc, hneg], not_lt.mp hneg⟩
  · intro h6
    have hinv : invalid_rating r = true := by
      simp only [invalid_rating, qgt, h6, Bool.or_eq_true, decide_eq_true_eq]
      right
      norm_num
    have hnone : (standardize r).google_rating = none := by simp [standardize, hinv]
    refine ⟨hnone, fun rcCol => ?_⟩
    have : (enrichRow rcCol r).flag_no_rating = (standardize r).google_rating.isNone := rfl
    rw [this, hnone]
    rfl

/-- Witness for C7 at a row with raw rating exactly 6.0. -/
theorem rating_review_standardized_witness :
    (standardize rating6Row).google_rating = none ∧
      (enrichRow [] rating6Row).flag_no_rating = true :=
  ⟨((rating_review_standardized rating6Row).2.2 (by decide)).1,
   ((rating_review_standardized rating6Row).2.2 (by decide)).2 []⟩

/-- Claim C8: `quality_flag_count` is the number of true flags among the five
boolean quality flags (hence at most 5), and `quality_tier` is binned from it
as 0 → excellent, 1 → good, 2 → acceptable, ≥ 3 → poor. -/
theorem quality_flag_count_and_tier (rcCol : List (Option Int)) (r : RawRow) :
    (enrichRow rcCol r).quality_flag_count =
      [(enrichRow rcCol r).flag_missing_location, (enrichRow rcCol r).flag_no_rating,
       (enrichRow rcCol r).flag_no_price, (enrichRow rcCol r).flag_location_out_of_bounds,
       (enrichRow rcCol r).flag_suspicious_price].countP id ∧
    (enrichRow rcCol r).quality_flag_count ≤ 5 ∧
    (enrichRow rcCol r).quality_tier = some
      (if (enrichRow rcCol r).quality_flag_count = 0 then QualityTier.excellent
       else if (enrichRow rcCol r).quality_flag_count = 1 then QualityTier.good
       else if (enrichRow rcCol r).quality_flag_count = 2 then QualityTier.acceptable
       else QualityTier.poor) := by
  have h1 := countP_five (enrichRow rcCol r).flag_missing_location
    (enrichRow rcCol r).flag_no_rating (enrichRow rcCol r).flag_no_price
    (enrichRow rcCol r).flag_location_out_of_bounds (enrichRow rcCol r).flag_suspicious_price
  have hcnt : (enrichRow rcCol r).quality_flag_count =
      (enrichRow rcCol r).flag_missing_location.toNat +
        (enrichRow rcCol r).flag_no_rating.toNat + (enrichRow rcCol r).flag_no_price.toNat +
        (enrichRow rcCol r).flag_location_out_of_bounds.toNat +
        (enrichRow rcCol r).flag_suspicious_price.toNat := rfl
  have ht : (enrichRow rcCol r).quality_tier =
      qualityTierOf ((enrichRow rcCol r).quality_flag_count : Int) := rfl
  refine ⟨hcnt ▸ h1.1, hcnt ▸ h1.2, ?_⟩
  rw [ht, qualityTierOf_nat]

/-- A second row sharing `goodRow`'s `cafe_id`. -/
def dupIdRow : RawRow :=
  { goodRow with name := some "Another Cafe" }

/-- Claim C2: a null required field or a duplicated `cafe_id` aborts the run
with a failing (non-zero) exit status leaving the derived store untouched (zero
tables written); otherwise — absent write failures — the run exits 0 having
written the six tables, with the complete store produced. -/
theorem ferry_exit_behavior (prior : Option (List String)) (raw : List RawRow) :
    (((∃ r ∈ raw, missingRequired r = true) ∨ ¬ (raw.map (·.cafe_id)).Nodup) →
      ∀ failAt, ferryDisk prior raw failAt = (1, prior)) ∧
    ((∀ r ∈ raw, missingRequired r = false) → (raw.map (·.cafe_id)).Nodup →
      ferryDisk prior raw none = (0, some tableNames) ∧
        transform raw = .ok (transformStore raw)) := by
  constructor
  · intro h failAt
    unfold ferryDisk transform
    rcases h with h | h
    · have hm : raw.any missingRequired = true := by
        rcases h with ⟨r, hr, hmr⟩
        exact List.any_eq_true.mpr ⟨r, hr, hmr⟩
      simp [hm]
    · have hd : hasDup (raw.map (·.cafe_id)) = true := by
        cases hc : hasDup (raw.map (·.cafe_id))
        · exact absurd (hasDup_eq_false_iff.mp hc) h
        · rfl
      cases hm : raw.any missingRequired <;> simp [hm, hd]
  · intro h1 h2
    have ha : raw.any missingRequired = false := by
      rw [List.any_eq_false]
      intro r hr
      simp [h1 r hr]
    have hd : hasDup (raw.map (·.cafe_id)) = false := hasDup_eq_false_iff.mpr h2
    unfold ferryDisk transform
    simp [ha, hd]

/-- Witness for C2: a duplicated `cafe_id` leaves the prior store and exits 1;
the clean single-row input exits 0 with all six tables. -/
theorem ferry_exit_behavior_witness :
    ferryDisk (some tableNames) [goodRow, dupIdRow] none = (1, some tableNames) ∧
      ferryDisk none [goodRow] none = (0, some tableNames) :=
  ⟨(ferry_exit_behavior (some tableNames) [goodRow, dupIdRow]).1 (Or.inr (by decide)) none,
   ((ferry_exit_behavior none [goodRow]).2 (by decide) (by decide)).1⟩

/-- Claim C10: every metadata record a run actually produces carries
`validation_errors = 0`: both fatal checks exit the process before the store is
built, and no surviving path increments the counter. -/
theorem metadata_zero_validation_errors (raw : List RawRow) (s : Store)
    (h : transform raw = .ok s) : s.metadata.validation_errors = 0 := by
  obtain ⟨-, -, hs⟩ := transform_eq_ok h
  subst hs
  rfl

/-- Witness for C10 on the example row. -/
theorem metadata_zero_validation_errors_witness :
    (transformStore [goodRow]).metadata.validation_errors = 0 :=
  metadata_zero_validation_errors [goodRow] (transformStore [goodRow]) rfl

/-- Claim C3, counterexample: a run whose only data problem is a negative
`review_count` surfaces zero warnings in its metadata even though the value is
corrected to null — the negative-review_count category is corrected but never
counted into `validation_warnings`. -/
theorem neg_review_count_not_counted :
    negReviewRow.review_count = some (-5) ∧
      (standardize negReviewRow).review_count = none ∧
      (transform [negReviewRow]).toOption.map (fun s => s.metadata.validation_warnings) =
        some 0 :=
  ⟨rfl, rfl, rfl⟩

/-- Claim C3 (amended): the run's warning total surfaced in the metadata counts
the three checked categories — out-of-bounds coordinates, implausible price,
invalid rating; a negative `review_count` is corrected to null during
standardization but contributes nothing to the counted total. -/
theorem warnings_surfaced (raw : List RawRow) (s : Store)
    (h : transform raw = .ok s) :
    s.metadata.validation_warnings =
      raw.countP location_warning + raw.countP price_warning +
        raw.countP rating_warning ∧
    ∀ r ∈ raw, ∀ c : Int, r.review_count = some c → c < 0 →
      (standardize r).review_count = none := by
  obtain ⟨-, -, hs⟩ := transform_eq_ok h
  subst hs
  refine ⟨rfl, ?_⟩
  intro r _ c hc hneg
  simp [standardize, hc, hneg]

/-- Witness for the amended C3 theorem on the negative-review-count row. -/
theorem warnings_surfaced_witness :
    (transformStore [negReviewRow]).metadata.validation_warnings =
      [negReviewRow].countP location_warning + [negReviewRow].countP price_warning +
        [negReviewRow].countP rating_warning ∧
      (standardize negReviewRow).review_count = none :=
  ⟨(warnings_surfaced [negReviewRow] (transformStore [negReviewRow]) rfl).1,
   (warnings_surfaced [negReviewRow] (transformStore [negReviewRow]) rfl).2
     negReviewRow (by decide) (-5) rfl (by decide)⟩

/-- Claim C5, counterexample: a row with a null latitude and an out-of-bounds
longitude has `flag_location_out_of_bounds = true` in the written table while
the Validator's location warning mask (which requires both coordinates present)
is false — the flag is not "true exactly when the mask is true". -/
theorem flag_out_of_bounds_mismatch :
    location_warning halfCoordRow = false ∧
      (transform [halfCoordRow]).toOption.map
        (fun s => s.cafes_complete.map (fun e => e.flag_location_out_of_bounds)) =
        some [true] :=
  ⟨rfl, rfl⟩

/-- Claim C5 (amended): `flag_suspicious_price` coincides with the Validator's
price warning mask and `flag_missing_location` is `lat is null or lng is null`
independent of the bounding box; but `flag_location_out_of_bounds` is the raw
`out_of_bounds` comparison mask (a null coordinate compares in-bounds), which
agrees with the Validator's location warning mask only when both coordinates
are present — a row with one null coordinate and the other out of bounds is
flagged although the mask is false. -/
theorem flags_vs_masks (rcCol : List (Option Int)) (r : RawRow) :
    (enrichRow rcCol r).flag_location_out_of_bounds = out_of_bounds r ∧
    (has_coords r = true →
      (enrichRow rcCol r).flag_location_out_of_bounds = location_warning r) ∧
    (enrichRow rcCol r).flag_suspicious_price = price_warning r ∧
    (enrichRow rcCol r).flag_missing_location =
      (r.latitude.isNone || r.longitude.isNone) := by
  refine ⟨rfl, ?_, ?_, rfl⟩
  · intro hc
    have h1 : (enrichRow rcCol r).flag_location_out_of_bounds = out_of_bounds r := rfl
    rw [h1]
    simp [location_warning, hc]
  · have h1 : (enrichRow rcCol r).flag_suspicious_price = price_suspicious r := rfl
    rw [h1]
    rcases hp : r.avg_beverage_price with _ | p
    · simp [price_warning, price_suspicious, qlt, qgt, hp]
    · simp [price_warning, hp]

/-- Witness for the amended C5 theorem: on the example row (both coordinates
present) the flag does agree with the Validator's mask. -/
theorem flags_vs_masks_witness :
    (enrichRow [] goodRow).flag_location_out_of_bounds = location_warning goodRow :=
  (flags_vs_masks [] goodRow).2.1 (by decide)

/-- Claim C6: on every successful run, `soc_locations` and `competitors` are
the `is_soc`-partition of `cafes_complete` with the `is_soc` column dropped:
each is the corresponding filter of `cafes_complete` mapped through the column
drop, together they are a permutation of `cafes_complete` (modulo the dropped
column), the partition predicate is the case-insensitive "square one"
substring match on `name`, and no `cafe_id` appears in both subsets. -/
theorem soc_competitor_partition (raw : List RawRow) (s : Store)
    (h : transform raw = .ok s) :
    s.soc_locations = (s.cafes_complete.filter (·.is_soc)).map (·.toDroppedRow) ∧
    s.competitors =
      (s.cafes_complete.filter (fun e => !e.is_soc)).map (·.toDroppedRow) ∧
    List.Perm (s.soc_locations ++ s.competitors)
      (s.cafes_complete.map (·.toDroppedRow)) ∧
    (∀ e ∈ s.cafes_complete, e.is_soc = socPred e.name) ∧
    (∀ i : Option Int, i ∈ s.soc_locations.map (·.cafe_id) →
      i ∉ s.competitors.map (·.cafe_id)) := by
  obtain ⟨-, hdup, hs⟩ := transform_eq_ok h
  subst hs
  have hcc : (transformStore raw).cafes_complete =
      raw.map (enrichRow (raw.map (fun r => (standardize r).review_count))) := rfl
  have hsoc0 : (transformStore raw).soc_locations =
      ((transformStore raw).cafes_complete.filter (·.is_soc)).map (·.toDroppedRow) := rfl
  have hcomp0 : (transformStore raw).competitors =
      ((transformStore raw).cafes_complete.filter (fun e => !e.is_soc)).map
        (·.toDroppedRow) := rfl
  refine ⟨rfl, rfl, ?_, ?_, ?_⟩
  · rw [hsoc0, hcomp0, ← List.map_append]
    exact List.Perm.map _ (List.filter_append_perm _ _)
  · intro e he
    rw [hcc] at he
    obtain ⟨r, -, rfl⟩ := List.mem_map.mp he
    rfl
  · intro i hi hj
    have hsoc : (transformStore raw).soc_locations =
        ((transformStore raw).cafes_complete.filter (·.is_soc)).map (·.toDroppedRow) := rfl
    have hcomp : (transformStore raw).competitors =
        ((transformStore raw).cafes_complete.filter (fun e => !e.is_soc)).map
          (·.toDroppedRow) := rfl
    rw [hsoc, List.map_map, List.mem_map] at hi
    rw [hcomp, List.map_map, List.mem_map] at hj
    obtain ⟨e1, he1, hid1⟩ := hi
    obtain ⟨e2, he2, hid2⟩ := hj
    obtain ⟨he1m, hp1⟩ := List.mem_filter.mp he1
    obtain ⟨he2m, hp2⟩ := List.mem_filter.mp he2
    have hids : (transformStore raw).cafes_complete.map (fun e => e.cafe_id) =
        raw.map (fun r => r.cafe_id) := by
      rw [hcc, List.map_map]
      rfl
    have hnd : ((transformStore raw).cafes_complete.map (fun e => e.cafe_id)).Nodup := by
      rw [hids]
      exact hasDup_eq_false_iff.mp hdup
    have heq : e1 = e2 :=
      List.inj_on_of_nodup_map hnd he1m he2m (hid1.trans hid2.symm)
    rw [heq] at hp1
    rw [hp1] at hp2
    exact Bool.noConfusion hp2

/-- Witness for C6 on a two-row table with one SOC location and one
competitor. -/
theorem soc_competitor_partition_witness :
    (transformStore [goodRow, negReviewRow]).soc_locations =
      ((transformStore [goodRow, negReviewRow]).cafes_complete.filter
        (·.is_soc)).map (·.toDroppedRow) ∧
    some (1 : Int) ∉ (transformStore [goodRow, negReviewRow]).competitors.map
      (·.cafe_id) := by
  refine ⟨?_, ?_⟩
  · exact (soc_competitor_partition [goodRow, negReviewRow]
      (transformStore [goodRow, negReviewRow]) rfl).1
  · refine (soc_competitor_partition [goodRow, negReviewRow]
      (transformStore [goodRow, negReviewRow]) rfl).2.2.2.2 (some 1) ?_
    decide

/-- Claim C9: `quality_score` is `google_rating × ln(review_count + 1)` on the
standardized columns, null — not zero — when either input is null, and the
logarithm's argument is positive since standardization nulls negative review
counts. -/
theorem quality_score_spec (r : RawRow) :
    (qualityScore (standardize r).google_rating (standardize r).review_count = none ↔
      ((standardize r).google_rating = none ∨ (standardize r).review_count = none)) ∧
    (∀ g : ℚ, ∀ c : Int, (standardize r).google_rating = some g →
      (standardize r).review_count = some c →
      qualityScore (standardize r).google_rating (standardize r).review_count =
          some ((g : ℝ) * Real.log ((c : ℝ) + 1)) ∧
        (0 : ℝ) < (c : ℝ) + 1) := by
  constructor
  · rcases hg : (standardize r).google_rating with _ | g <;>
      rcases hc : (standardize r).review_count with _ | c <;>
        simp [qualityScore]
  · intro g c hg hc
    have hnn : (0 : Int) ≤ c := by
      have : (standardize r).review_count = none ∨
          ∃ c : Int, (standardize r).review_count = some c ∧ 0 ≤ c := by
        unfold standardize
        rcases hrc : r.review_count with _ | c0
        · left; rfl
        · by_cases hneg : c0 < 0
          · left; simp [hrc, hneg]
          · right; exact ⟨c0, by simp [hrc, hneg], not_lt.mp hneg⟩
      rcases this with h0 | ⟨c1, hc1, hge⟩
      · rw [h0] at hc; exact Option.noConfusion hc
      · rw [hc1] at hc
        obtain rfl := (Option.some.injEq _ _).mp hc
        exact hge
    constructor
    · rw [hg, hc]
      rfl
    · have : (0 : ℝ) ≤ (c : ℝ) := by exact_mod_cast hnn
      linarith

/-- Witness for C9 on the example row (rating 4.6, 300 reviews):
`quality_score = 4.6 × ln 301`. -/
theorem quality_score_spec_witness :
    qualityScore (standardize goodRow).google_rating (standardize goodRow).review_count =
        some (((mkRat 23 5 : ℚ) : ℝ) * Real.log (((300 : Int) : ℝ) + 1)) ∧
      (0 : ℝ) < ((300 : Int) : ℝ) + 1 :=
  (quality_score_spec goodRow).2 (mkRat 23 5) 300 (by decide) (by decide)

/-- Claim C4 (writer non-atomicity): the script deletes the prior store file up
front and then writes the six tables sequentially, so a failure after the
second `to_sql` call leaves a store holding only `cafes_complete` and
`soc_locations` — neither the complete prior store nor the complete new one,
with a nonzero exit status. -/
theorem writer_leaves_incomplete_store :
    ferryDisk (some tableNames) [goodRow] (some 2) =
        (1, some ["cafes_complete", "soc_locations"]) ∧
      some ["cafes_complete", "soc_locations"] ≠ some tableNames ∧
      some ["cafes_complete", "soc_locations"] ≠ (none : Option (List String)) := by
  refine ⟨rfl, by decide, by decide⟩

end Ferry
